import Mathlib

/-!
Shallow embedding of the transaction-lifecycle and payment-status
reconciliation engine of the subscription storefront: the in-memory store
(MemStorage), the webhook service, the gateway clients for status lookup,
and the HTTP route bodies that drive them.  Statuses, plan codes and ids
are strings, as in the source; JavaScript Date values are modelled as
calendar dates with a time-of-day component, and the Date mutators
setMonth(getMonth()+1) and setFullYear(getFullYear()+1) are modelled with
their calendar normalization (day overflow rolls into the next month).
Every stateful operation takes the store state explicitly and the current
time as a parameter standing for new Date().
-/

/-- Model of a JavaScript Date: Gregorian calendar date plus the time of
day in milliseconds.  month is the zero-based month index 0..11, day is
the one-based day of month. -/
structure JSDate where
  year : Nat
  month : Nat
  day : Nat
  tod : Nat
deriving DecidableEq, Repr

/-- Gregorian leap-year test. -/
def isLeapYear (y : Nat) : Bool :=
  y % 4 == 0 && (y % 100 != 0 || y % 400 == 0)

/-- Days in the given zero-based month of the given year. -/
def daysInMonth (y m : Nat) : Nat :=
  if m = 1 then (if isLeapYear y then 29 else 28)
  else if m = 3 ∨ m = 5 ∨ m = 8 ∨ m = 10 then 30
  else 31

/-- Predicate for a well-formed calendar date. -/
def validDate (d : JSDate) : Prop :=
  d.month ≤ 11 ∧ 1 ≤ d.day ∧ d.day ≤ daysInMonth d.year d.month

instance (d : JSDate) : Decidable (validDate d) := by
  unfold validDate; infer_instance

/-- Strict chronological order on date models (lexicographic on year,
month, day, time of day), matching numeric comparison of Date values. -/
def dateLtB (a b : JSDate) : Bool :=
  if a.year ≠ b.year then decide (a.year < b.year)
  else if a.month ≠ b.month then decide (a.month < b.month)
  else if a.day ≠ b.day then decide (a.day < b.day)
  else decide (a.tod < b.tod)

/-- Model of endDate.setMonth(endDate.getMonth() + 1) on a Date holding
d: the month index is incremented with year carry, and a day of month
beyond the target month length rolls over into the following month, as
JavaScript Date normalization does.  For a valid input date the overflow
never carries further than one month. -/
def addOneMonthJS (d : JSDate) : JSDate :=
  let m1 := d.month + 1
  let y := d.year + m1 / 12
  let m := m1 % 12
  if d.day ≤ daysInMonth y m then ⟨y, m, d.day, d.tod⟩
  else
    let m2 := m + 1
    ⟨y + m2 / 12, m2 % 12, d.day - daysInMonth y m, d.tod⟩

/-- Model of endDate.setFullYear(endDate.getFullYear() + 1): the year is
incremented; a February 29 landing on a non-leap year rolls over to
March 1 by Date normalization. -/
def addOneYearJS (d : JSDate) : JSDate :=
  if d.day ≤ daysInMonth (d.year + 1) d.month then
    ⟨d.year + 1, d.month, d.day, d.tod⟩
  else
    ⟨d.year + 1, d.month + 1, d.day - daysInMonth (d.year + 1) d.month, d.tod⟩

/-- Buyer snapshot stored on a transaction (routes.ts, buyerInfo). -/
structure BuyerInfo where
  name : String
  email : String
  document : String
  phone : String
deriving DecidableEq, Repr

/-- Gateway payment payload stored on a transaction (paymentData). -/
structure PaymentData where
  qrCodeBase64 : Option String
  qrCodeText : Option String
  paymentUrl : Option String
deriving DecidableEq, Repr

/-- A stored transaction row (shared/schema.ts, transactions table). -/
structure Transaction where
  id : String
  unicId : String
  externalId : String
  userId : Option String
  amount : Int
  status : String
  paymentMethod : String
  plan : String
  planTitle : String
  buyerInfo : BuyerInfo
  paymentData : Option PaymentData
  createdAt : JSDate
  updatedAt : JSDate
deriving DecidableEq, Repr

/-- A stored subscription row (shared/schema.ts, subscriptions table). -/
structure Subscription where
  id : String
  userId : String
  transactionId : String
  plan : String
  status : String
  startDate : JSDate
  endDate : JSDate
  createdAt : JSDate
deriving DecidableEq, Repr

/-- Payload data of a BullsPay webhook notification
(BullsPayWebhookPayload.data). -/
structure WebhookData where
  unic_id : String
  external_id : String
  status : String
  total_value : Int
  total_to_receiver : Int
  created_at : String
deriving DecidableEq, Repr

/-- A BullsPay webhook notification (BullsPayWebhookPayload). -/
structure WebhookPayload where
  event_type : String
  data : WebhookData
deriving DecidableEq, Repr

/-- A stored webhook event row (shared/schema.ts, webhookEvents table). -/
structure WebhookEvent where
  id : String
  eventType : String
  transactionId : String
  payload : WebhookPayload
  processed : Bool
  createdAt : JSDate
deriving DecidableEq, Repr

/-- Checkout form data (shared/schema.ts, checkoutFormSchema). -/
structure CheckoutForm where
  name : String
  email : String
  document : String
  phone : String
  plan : String
  price : Int
  title : String
deriving DecidableEq, Repr

/-- Validation performed by checkoutFormSchema.parse: name at least 2
characters, document exactly 11 characters, phone at least 10 characters,
and the zod email-shape check, which is library code abstracted here as
the predicate emailOk. -/
def checkoutFormValid (emailOk : String → Bool) (f : CheckoutForm) : Bool :=
  2 ≤ f.name.length && emailOk f.email &&
    f.document.length = 11 && 10 ≤ f.phone.length

/-- Insert shape for a transaction (insertTransactionSchema: a transaction
without id and timestamps). -/
structure InsertTransaction where
  unicId : String
  externalId : String
  userId : Option String
  amount : Int
  status : String
  paymentMethod : String
  plan : String
  planTitle : String
  buyerInfo : BuyerInfo
  paymentData : Option PaymentData
deriving DecidableEq, Repr

/-- Insert shape for a subscription (insertSubscriptionSchema). -/
structure InsertSubscription where
  userId : String
  transactionId : String
  plan : String
  status : String
  startDate : JSDate
  endDate : JSDate
deriving DecidableEq, Repr

/-- Insert shape for a webhook event (insertWebhookEventSchema). -/
structure InsertWebhookEvent where
  eventType : String
  transactionId : String
  payload : WebhookPayload
  processed : Bool
deriving DecidableEq, Repr

/-- State of the in-memory store (server/storage.ts, class MemStorage).
The JavaScript Maps preserve insertion order, so each table is a list in
insertion order; nextId models the fresh-id source (randomUUID), whose
only relevant property is that generated ids are fresh. -/
structure MemStorage where
  transactions : List Transaction
  subscriptions : List Subscription
  webhookEvents : List WebhookEvent
  nextId : Nat
deriving DecidableEq, Repr

namespace MemStorage

/-- MemStorage.getTransactionByUnicId: first stored transaction with the
given gateway id, in insertion order. -/
def getTransactionByUnicId (unicId : String) (st : MemStorage) :
    Option Transaction :=
  st.transactions.find? (fun t => t.unicId == unicId)

/-- MemStorage.createTransaction: assigns a fresh id and timestamps and
inserts the row. -/
def createTransaction (ins : InsertTransaction) (now : JSDate)
    (st : MemStorage) : Transaction × MemStorage :=
  let t : Transaction :=
    ⟨Nat.repr st.nextId, ins.unicId, ins.externalId, ins.userId, ins.amount,
      ins.status, ins.paymentMethod, ins.plan, ins.planTitle, ins.buyerInfo,
      ins.paymentData, now, now⟩
  (t, { st with transactions := st.transactions ++ [t],
                nextId := st.nextId + 1 })

/-- MemStorage.updateTransactionStatus: looks the transaction up by
gateway id; when found, overwrites its status, stamps updatedAt, patches
paymentData when a patch is given, and writes the row back in place. -/
def updateTransactionStatus (unicId status : String)
    (paymentData : Option PaymentData) (now : JSDate) (st : MemStorage) :
    Option Transaction × MemStorage :=
  match getTransactionByUnicId unicId st with
  | none => (none, st)
  | some t =>
    let t' : Transaction :=
      { t with status := status, updatedAt := now,
               paymentData := match paymentData with
                              | some pd => some pd
                              | none => t.paymentData }
    (some t',
     { st with transactions :=
         st.transactions.map (fun x => if x.id == t.id then t' else x) })

/-- MemStorage.getUserActiveSubscription: first subscription of the user
whose status is "active" and whose end date is strictly after now. -/
def getUserActiveSubscription (userId : String) (now : JSDate)
    (st : MemStorage) : Option Subscription :=
  st.subscriptions.find? (fun s =>
    s.userId == userId && s.status == "active" && dateLtB now s.endDate)

/-- MemStorage.createSubscription: assigns a fresh id and creation time
and inserts the row. -/
def createSubscription (ins : InsertSubscription) (now : JSDate)
    (st : MemStorage) : Subscription × MemStorage :=
  let s : Subscription :=
    ⟨Nat.repr st.nextId, ins.userId, ins.transactionId, ins.plan, ins.status,
      ins.startDate, ins.endDate, now⟩
  (s, { st with subscriptions := st.subscriptions ++ [s],
                nextId := st.nextId + 1 })

/-- MemStorage.createWebhookEvent: assigns a fresh id and creation time
and inserts the row. -/
def createWebhookEvent (ins : InsertWebhookEvent) (now : JSDate)
    (st : MemStorage) : WebhookEvent × MemStorage :=
  let e : WebhookEvent :=
    ⟨Nat.repr st.nextId, ins.eventType, ins.transactionId, ins.payload,
      ins.processed, now⟩
  (e, { st with webhookEvents := st.webhookEvents ++ [e],
                nextId := st.nextId + 1 })

/-- MemStorage.getUnprocessedWebhookEvents: all stored events whose
processed flag is false, in insertion order. -/
def getUnprocessedWebhookEvents (st : MemStorage) : List WebhookEvent :=
  st.webhookEvents.filter (fun e => !e.processed)

/-- MemStorage.markWebhookEventProcessed: sets the processed flag of the
event stored under the given id. -/
def markWebhookEventProcessed (id : String) (st : MemStorage) : MemStorage :=
  { st with webhookEvents :=
      st.webhookEvents.map (fun e =>
        if e.id == id then { e with processed := true } else e) }

end MemStorage

namespace WebhookService

/-- WebhookService.createSubscription: derives the subscription dates
from the transaction plan (premium and basic get one month, annual gets
one year, any other plan code falls through to the one-month default) and
inserts an "active" subscription for the transaction user.  The caller
guarantees the user reference uid is present; both new Date() calls are
modelled by the single parameter now. -/
def createSubscription (t : Transaction) (uid : String) (now : JSDate)
    (st : MemStorage) : MemStorage :=
  let startDate := now
  let endDate :=
    if t.plan == "premium" || t.plan == "basic" then addOneMonthJS now
    else if t.plan == "annual" then addOneYearJS now
    else addOneMonthJS now
  (MemStorage.createSubscription
    ⟨uid, t.id, t.plan, "active", startDate, endDate⟩ now st).2

/-- WebhookService.handleTransactionEvent: writes the reported status to
the stored transaction; if no transaction matches the gateway id it only
logs and stops; if the new status is "paid" and the transaction has a
(truthy) user reference it creates a subscription; "failed" and
"cancelled" invoke handleFailedPayment, which only logs. -/
def handleTransactionEvent (p : WebhookPayload) (now : JSDate)
    (st : MemStorage) : MemStorage :=
  match MemStorage.updateTransactionStatus p.data.unic_id p.data.status
      none now st with
  | (none, st1) => st1
  | (some t, st1) =>
    if p.data.status == "paid" then
      match t.userId with
      | some uid => if uid.isEmpty then st1 else createSubscription t uid now st1
      | none => st1
    else st1

/-- WebhookService.processWebhookEvent: durably records the inbound
notification as a webhook event with processed = false, then runs the
status transition for it. -/
def processWebhookEvent (p : WebhookPayload) (now : JSDate)
    (st : MemStorage) : MemStorage :=
  let st1 := (MemStorage.createWebhookEvent
    ⟨p.event_type, p.data.unic_id, p, false⟩ now st).2
  handleTransactionEvent p now st1

/-- Replay loop of WebhookService.processUnprocessedEvents: runs the
handler on each event in turn; on success the event is marked processed,
on failure the error is only logged and the loop continues with the next
event.  The handler is a parameter so that the loop is stated for any
fallible status-transition handler. -/
def replayLoop (h : WebhookPayload → MemStorage → Except Unit MemStorage) :
    List WebhookEvent → MemStorage → MemStorage
  | [], st => st
  | e :: es, st =>
    match h e.payload st with
    | Except.ok st' =>
      replayLoop h es (MemStorage.markWebhookEventProcessed e.id st')
    | Except.error _ => replayLoop h es st

/-- Success trace of the replay loop: the outcome of the handler call
made for each event, computed by the same recursion as replayLoop. -/
def replayTrace (h : WebhookPayload → MemStorage → Except Unit MemStorage) :
    List WebhookEvent → MemStorage → List Bool
  | [], _ => []
  | e :: es, st =>
    match h e.payload st with
    | Except.ok st' =>
      true :: replayTrace h es (MemStorage.markWebhookEventProcessed e.id st')
    | Except.error _ => false :: replayTrace h es st

/-- WebhookService.processUnprocessedEvents: fetches every event flagged
unprocessed and replays each through handleTransactionEvent, which over
MemStorage completes without error. -/
def processUnprocessedEvents (now : JSDate) (st : MemStorage) : MemStorage :=
  replayLoop (fun p s => Except.ok (handleTransactionEvent p now s))
    (MemStorage.getUnprocessedWebhookEvents st) st

end WebhookService

/-- Shape of the BullsPay transaction-list lookup response used by
BullsPayService.checkTransactionStatus: the success flag and the status
fields of result.data.transactions. -/
structure BullsPayListEntry where
  status : String
deriving DecidableEq, Repr

/-- Response wrapper of the BullsPay transaction-list lookup. -/
structure BullsPayListResult where
  success : Bool
  transactions : List BullsPayListEntry
deriving DecidableEq, Repr

/-- Fields of a successful BullsPay transaction-creation response used by
the create route: the gateway transaction id and the PIX code. -/
structure BullsPayPaymentData where
  id : String
  amount : Int
  external_id : String
deriving DecidableEq, Repr

/-- PIX block of the BullsPay creation response. -/
structure BullsPayPixData where
  qrcode : String
deriving DecidableEq, Repr

/-- Data block of a successful BullsPay creation response. -/
structure BullsPayResponseData where
  payment_data : BullsPayPaymentData
  pix_data : BullsPayPixData
deriving DecidableEq, Repr

/-- A successful BullsPay transaction-creation response
(BullsPayTransactionResponse with success = true). -/
structure BullsPayTransactionResponse where
  data : BullsPayResponseData
deriving DecidableEq, Repr

namespace BullsPayService

/-- BullsPayService.checkTransactionStatus on a successfully fetched
response body: when the lookup succeeded and returned at least one
transaction, the status string of the first transaction is returned as is;
otherwise "pending". -/
def checkTransactionStatus (result : BullsPayListResult) : String :=
  match result.success, result.transactions with
  | true, t :: _ => t.status
  | _, _ => "pending"

end BullsPayService

/-- Model of the JavaScript String.prototype.toLowerCase on the ASCII
provider status vocabulary: each character is lower-cased. -/
def strToLower (s : String) : String :=
  String.mk (s.data.map Char.toLower)

/-- Data block of a SourcePay transaction lookup; the status field is
optional (the source reads result.data.status with optional chaining). -/
structure SourcePayData where
  status : Option String
deriving DecidableEq, Repr

/-- Response wrapper of a SourcePay transaction lookup; data is absent
when the provider returns none. -/
structure SourcePayStatusResult where
  success : Bool
  data : Option SourcePayData
deriving DecidableEq, Repr

namespace SourcePayService

/-- SourcePayService.checkTransactionStatus on a successfully fetched
response body: lower-cases the provider status and maps it into the local
vocabulary — paid and approved to "paid", pending and waiting_payment to
"pending", failed, cancelled and expired to "failed" — with "pending" for
every other case, including a missing status or data block. -/
def checkTransactionStatus (result : SourcePayStatusResult) : String :=
  match result.success, result.data with
  | true, some d =>
    match d.status.map strToLower with
    | some s =>
      if s == "paid" || s == "approved" then "paid"
      else if s == "pending" || s == "waiting_payment" then "pending"
      else if s == "failed" || s == "cancelled" || s == "expired" then "failed"
      else "pending"
    | none => "pending"
  | _, _ => "pending"

end SourcePayService

namespace Routes

/-- Success path of POST /api/transactions/create after the checkout form
parsed and the gateway call succeeded with response resp: persists a
transaction in "pending" status with the gateway id, a null user
reference, the submitted price as amount, the buyer snapshot, and the
gateway PIX code as payment data, and returns it. -/
def createTransactionRoute (form : CheckoutForm) (externalId : String)
    (resp : BullsPayTransactionResponse) (now : JSDate) (st : MemStorage) :
    Transaction × MemStorage :=
  MemStorage.createTransaction
    ⟨resp.data.payment_data.id, externalId, none, form.price, "pending",
      "pix", form.plan, form.title,
      ⟨form.name, form.email, form.document, form.phone⟩,
      some ⟨none, some resp.data.pix_data.qrcode, none⟩⟩ now st

/-- Success path of GET /api/transactions/:unicId/status, given the
status string the gateway client returned: writes that status to the
local transaction through the store directly and reports it back. -/
def checkStatusRoute (unicId : String) (gatewayStatus : String)
    (now : JSDate) (st : MemStorage) : String × MemStorage :=
  (gatewayStatus,
   (MemStorage.updateTransactionStatus unicId gatewayStatus none now st).2)

end Routes

/-- Processed flag of the event stored under the given id in an event
list, when such an event exists. -/
def listFlag (l : List WebhookEvent) (id : String) : Option Bool :=
  (l.find? (fun e => e.id == id)).map (fun e => e.processed)

/-- Processed flag of the event stored under the given id in the store. -/
def flagOf (st : MemStorage) (id : String) : Option Bool :=
  listFlag st.webhookEvents id

/-- Success of a fallible handler call (did it complete without error). -/
def exceptOk (r : Except Unit MemStorage) : Bool :=
  match r with
  | Except.ok _ => true
  | Except.error _ => false

/-- Concrete date used by the example scenarios: January 15 2024. -/
def dA : JSDate := ⟨2024, 0, 15, 0⟩

/-- Concrete date used by the example scenarios: January 16 2024. -/
def dB : JSDate := ⟨2024, 0, 16, 0⟩

/-- Example stored transaction with an associated user, in "pending"
status, under gateway id "u-1". -/
def exTx : Transaction :=
  ⟨"0", "u-1", "ext-1", some "user1", 2990, "pending", "pix", "premium",
    "Acesso VIP", ⟨"Ana Silva", "ana@x.com", "12345678901", "11999998888"⟩,
    some ⟨none, some "qr-text", none⟩, dA, dA⟩

/-- Example store holding only exTx. -/
def exSt : MemStorage := ⟨[exTx], [], [], 1⟩

/-- Example empty store. -/
def exSt0 : MemStorage := ⟨[], [], [], 0⟩

/-- Example webhook payload reporting "paid" for gateway id "u-1". -/
def exPaidPayload : WebhookPayload :=
  ⟨"transaction.paid", ⟨"u-1", "ext-1", "paid", 2990, 2890, "2024-01-15"⟩⟩

/-- Example webhook payload reporting "paid" for gateway id "u-9". -/
def exPaidPayload9 : WebhookPayload :=
  ⟨"transaction.paid", ⟨"u-9", "ext-1", "paid", 29900, 29000, "2024-01-15"⟩⟩

/-- Example webhook payload referring to an unknown gateway id. -/
def exBadPayload : WebhookPayload :=
  ⟨"transaction.paid", ⟨"bad", "ext-2", "paid", 0, 0, "2024-01-15"⟩⟩

/-- Example checkout form (the annual-plan scenario of the spec). -/
def exForm : CheckoutForm :=
  ⟨"Ana Silva", "ana@x.com", "12345678901", "11999998888", "annual", 29900,
    "Plano Anual VIP"⟩

/-- Example successful gateway creation response with gateway id "u-9". -/
def exResp : BullsPayTransactionResponse :=
  ⟨⟨⟨"u-9", 29900, "ext-1"⟩, ⟨"qr-code-text"⟩⟩⟩

/-- Example stored webhook event for the replay scenarios: refers to the
known transaction of exSt. -/
def evGood : WebhookEvent := ⟨"2", "transaction.paid", "u-1", exPaidPayload, false, dA⟩

/-- Example stored webhook event whose handling is made to fail in the
replay scenarios. -/
def evBad : WebhookEvent := ⟨"3", "transaction.paid", "bad", exBadPayload, false, dA⟩

/-- Example store holding the two replay events. -/
def exStReplay : MemStorage := ⟨[exTx], [], [evBad, evGood], 4⟩

/-- Example fallible handler for the replay scenarios: fails exactly on
payloads that refer to gateway id "bad", and otherwise leaves the store
unchanged. -/
def exHandler : WebhookPayload → MemStorage → Except Unit MemStorage :=
  fun p s => if p.data.unic_id == "bad" then Except.error () else Except.ok s

/-- Example active subscription of user "user1" ending February 15 2024. -/
def exSub : Subscription :=
  ⟨"5", "user1", "0", "premium", "active", dA, ⟨2024, 1, 15, 0⟩, dA⟩

/-- Example store holding only exSub. -/
def exStSub : MemStorage := ⟨[], [exSub], [], 6⟩

/-- The row a status update writes when the transaction is found: the
original row with the new status, a fresh updatedAt, and a patched
paymentData when a patch was supplied. -/
def patchedTx (t : Transaction) (s : String) (pd : Option PaymentData)
    (now : JSDate) : Transaction :=
  { t with status := s, updatedAt := now,
           paymentData := match pd with
                          | some q => some q
                          | none => t.paymentData }

section Lemmas

/-- Incrementing the month of a valid date, with JavaScript Date
normalization, yields a strictly later date. -/
lemma dateLtB_addOneMonthJS (d : JSDate) :
    dateLtB d (addOneMonthJS d) = true := by
  unfold addOneMonthJS
  dsimp only
  by_cases hd : d.day ≤ daysInMonth (d.year + (d.month + 1) / 12) ((d.month + 1) % 12)
  · rw [if_pos hd]
    unfold dateLtB
    dsimp only
    split_ifs <;> simp only [ne_eq, decide_eq_true_eq, not_not] at * <;> omega
  · rw [if_neg hd]
    unfold dateLtB
    dsimp only
    split_ifs <;> simp only [ne_eq, decide_eq_true_eq, not_not] at * <;> omega

/-- Incrementing the year of a date, with JavaScript Date normalization,
yields a strictly later date. -/
lemma dateLtB_addOneYearJS (d : JSDate) : dateLtB d (addOneYearJS d) = true := by
  unfold addOneYearJS
  by_cases hd : d.day ≤ daysInMonth (d.year + 1) d.month
  · rw [if_pos hd]
    unfold dateLtB
    dsimp only
    split_ifs <;> simp only [ne_eq, decide_eq_true_eq, not_not] at * <;> omega
  · rw [if_neg hd]
    unfold dateLtB
    dsimp only
    split_ifs <;> simp only [ne_eq, decide_eq_true_eq, not_not] at * <;> omega

/-- A status update touches only the transactions table: subscriptions,
webhook events and the id counter are unchanged. -/
lemma updateTransactionStatus_frame (u s : String) (pd : Option PaymentData)
    (now : JSDate) (st : MemStorage) :
    ((MemStorage.updateTransactionStatus u s pd now st).2).subscriptions =
        st.subscriptions ∧
    ((MemStorage.updateTransactionStatus u s pd now st).2).webhookEvents =
        st.webhookEvents ∧
    ((MemStorage.updateTransactionStatus u s pd now st).2).nextId = st.nextId := by
  unfold MemStorage.updateTransactionStatus
  cases h : MemStorage.getTransactionByUnicId u st <;> simp

/-- Replacing, in a list, the transaction that a lookup by gateway id
found, by a row with the same gateway id, makes the lookup find the
replacement. -/
lemma find?_map_update (l : List Transaction) (t t' : Transaction) (u : String)
    (hfind : l.find? (fun x => x.unicId == u) = some t) (hunic : t'.unicId = u) :
    (l.map (fun x => if x.id == t.id then t' else x)).find?
      (fun x => x.unicId == u) = some t' := by
  induction l with
  | nil => simp at hfind
  | cons a l ih =>
    by_cases ha : (a.unicId == u) = true
    · rw [List.find?_cons_of_pos (p := fun x : Transaction => x.unicId == u) _ ha] at hfind
      have hat : t = a := (Option.some.inj hfind).symm
      subst hat
      simp only [List.map_cons, beq_self_eq_true, if_true]
      rw [List.find?_cons_of_pos (p := fun x : Transaction => x.unicId == u)]
      rw [hunic, beq_self_eq_true]
    · rw [List.find?_cons_of_neg (p := fun x : Transaction => x.unicId == u) _ ha] at hfind
      simp only [List.map_cons]
      by_cases hid : (a.id == t.id) = true
      · rw [if_pos hid]
        rw [List.find?_cons_of_pos (p := fun x : Transaction => x.unicId == u)]
        rw [hunic, beq_self_eq_true]
      · rw [if_neg hid, List.find?_cons_of_neg (p := fun x : Transaction => x.unicId == u) _ ha]
        exact ih hfind

/-- When the transaction is found, a status update returns the patched
row and a subsequent lookup by the same gateway id finds the patched
row. -/
lemma updateTransactionStatus_found (u s : String) (pd : Option PaymentData)
    (now : JSDate) (st : MemStorage) (t : Transaction)
    (h : MemStorage.getTransactionByUnicId u st = some t) :
    (MemStorage.updateTransactionStatus u s pd now st).1 =
        some (patchedTx t s pd now) ∧
    MemStorage.getTransactionByUnicId u
        ((MemStorage.updateTransactionStatus u s pd now st).2) =
      some (patchedTx t s pd now) := by
  have hu : t.unicId = u := by
    have := List.find?_some h
    simpa [beq_iff_eq] using this
  unfold MemStorage.updateTransactionStatus
  rw [h]
  refine ⟨rfl, ?_⟩
  unfold MemStorage.getTransactionByUnicId at h ⊢
  exact find?_map_update st.transactions t _ u h hu

end Lemmas

/-- C1: the claim says a second "paid" status update for the same
transaction must not create a second subscription; evaluating the handler
twice on the stored transaction with a user shows the code creates two
subscriptions, as there is no idempotency check before the insert. -/
theorem c1_double_paid_two_subscriptions :
    (WebhookService.handleTransactionEvent exPaidPayload dB
        (WebhookService.handleTransactionEvent exPaidPayload dA
          exSt)).subscriptions.length = 2 := by
  decide

/-- C2 counterexample: for the stored transaction with a user, a "paid"
status arriving through the pull path (the status route) leaves zero
subscriptions while the same "paid" status through the webhook handler
creates one, although both write the stored status "paid" — so the two
paths do not produce the same state changes. -/
theorem c2_pull_push_divergence_cex :
    ((Routes.checkStatusRoute "u-1" "paid" dA exSt).2).subscriptions = [] ∧
    (WebhookService.handleTransactionEvent exPaidPayload dA
        exSt).subscriptions.length = 1 ∧
    (MemStorage.getTransactionByUnicId "u-1"
        ((Routes.checkStatusRoute "u-1" "paid" dA exSt).2)).map
        (fun t => t.status) = some "paid" ∧
    (MemStorage.getTransactionByUnicId "u-1"
        (WebhookService.handleTransactionEvent exPaidPayload dA exSt)).map
        (fun t => t.status) = some "paid" := by
  refine ⟨?_, ?_, ?_, ?_⟩ <;> decide

/-- C2 amended: the pull path writes the gateway-reported status to the
stored transaction directly through the store and bypasses the webhook
handler entirely: it never changes the subscriptions table (so a "paid"
arriving only via polling never creates a subscription) nor the webhook
events table. -/
theorem c2_pull_path_updates_status_only (u gs : String) (now : JSDate)
    (st : MemStorage) :
    ((Routes.checkStatusRoute u gs now st).2).subscriptions =
        st.subscriptions ∧
    ((Routes.checkStatusRoute u gs now st).2).webhookEvents =
        st.webhookEvents ∧
    (Routes.checkStatusRoute u gs now st).2 =
      (MemStorage.updateTransactionStatus u gs none now st).2 := by
  refine ⟨?_, ?_, rfl⟩
  · exact (updateTransactionStatus_frame u gs none now st).1
  · exact (updateTransactionStatus_frame u gs none now st).2.1

/-- C3 counterexample: after "paid" is applied, a later update carrying
"pending" leaves the stored status "pending", not "paid" — the status
regresses. -/
theorem c3_status_regression_cex :
    (MemStorage.getTransactionByUnicId "u-1"
        ((MemStorage.updateTransactionStatus "u-1" "pending" none dB
          ((MemStorage.updateTransactionStatus "u-1" "paid" none dA
            exSt).2)).2)).map (fun t => t.status) = some "pending" ∧
    ("pending" : String) ≠ "paid" := by
  refine ⟨?_, ?_⟩ <;> decide

/-- C3 amended: updateTransactionStatus enforces no status lattice — when
the transaction is found it unconditionally overwrites the stored status
with the incoming one (last write wins), so a stale "pending" applied
after "paid" leaves the stored status "pending". -/
theorem c3_last_write_wins (u s : String) (pd : Option PaymentData)
    (now : JSDate) (st : MemStorage) (t : Transaction)
    (h : MemStorage.getTransactionByUnicId u st = some t) :
    MemStorage.getTransactionByUnicId u
        ((MemStorage.updateTransactionStatus u s pd now st).2) =
      some (patchedTx t s pd now) :=
  (updateTransactionStatus_found u s pd now st t h).2

/-- Witness for c3_last_write_wins at the stored "pending" transaction. -/
theorem c3_last_write_wins_witness :
    MemStorage.getTransactionByUnicId "u-1"
        ((MemStorage.updateTransactionStatus "u-1" "pending" none dB
          exSt).2) = some (patchedTx exTx "pending" none dB) :=
  c3_last_write_wins "u-1" "pending" none dB exSt exTx (by decide)

/-- C4 counterexample: the BullsPay status operation returns the
provider-reported status string unmodified when the lookup succeeds, so
an unrecognized provider code escapes the fixed status set instead of
mapping to "pending". -/
theorem c4_bullspay_raw_status_cex :
    BullsPayService.checkTransactionStatus ⟨true, [⟨"chargeback"⟩]⟩ =
        "chargeback" ∧
    ("chargeback" : String) ∉
      (["pending", "paid", "failed", "cancelled"] : List String) := by
  refine ⟨rfl, ?_⟩
  decide

/-- C8: whenever the active-subscription query returns a subscription, it
belongs to the queried user, its stored status is "active", and its end
date is strictly in the future — an expired row is never returned. -/
theorem c8_active_subscription_not_expired (uid : String) (now : JSDate)
    (st : MemStorage) (s : Subscription)
    (h : MemStorage.getUserActiveSubscription uid now st = some s) :
    s.userId = uid ∧ s.status = "active" ∧ dateLtB now s.endDate = true := by
  unfold MemStorage.getUserActiveSubscription at h
  have hp := List.find?_some h
  simp only [Bool.and_eq_true, beq_iff_eq] at hp
  exact ⟨hp.1.1, hp.1.2, hp.2⟩

/-- Witness for c8_active_subscription_not_expired at the example store
holding one active subscription ending after the query time. -/
theorem c8_active_subscription_not_expired_witness :
    exSub.userId = "user1" ∧ exSub.status = "active" ∧
      dateLtB dA exSub.endDate = true :=
  c8_active_subscription_not_expired "user1" dA exStSub exSub (by decide)

/-- C4 amended: the SourcePay status operation always returns a value in
the fixed status set and maps every provider code outside its recognized
vocabulary (paid, approved, pending, waiting_payment, failed, cancelled,
expired, compared lower-cased) to "pending"; the BullsPay status
operation instead returns the provider status string verbatim whenever
the lookup succeeds with at least one transaction, and falls back to
"pending" only when it does not. -/
theorem c4_status_normalization (rb : BullsPayListResult)
    (rs : SourcePayStatusResult) :
    (SourcePayService.checkTransactionStatus rs = "pending" ∨
     SourcePayService.checkTransactionStatus rs = "paid" ∨
     SourcePayService.checkTransactionStatus rs = "failed") ∧
    (∀ d s, rs.data = some d → d.status = some s →
        strToLower s ∉ (["paid", "approved", "pending", "waiting_payment",
          "failed", "cancelled", "expired"] : List String) →
        SourcePayService.checkTransactionStatus rs = "pending") ∧
    (∀ t ts, rb.success = true → rb.transactions = t :: ts →
        BullsPayService.checkTransactionStatus rb = t.status) ∧
    ((rb.success = false ∨ rb.transactions = []) →
        BullsPayService.checkTransactionStatus rb = "pending") := by
  obtain ⟨su, da⟩ := rs
  obtain ⟨bu, bl⟩ := rb
  refine ⟨?_, ?_, ?_, ?_⟩
  · cases su
    · exact Or.inl rfl
    · cases da
      · exact Or.inl rfl
      · rename_i d
        cases hd : d.status
        · exact Or.inl (by simp [SourcePayService.checkTransactionStatus, hd])
        · rename_i s
          simp only [SourcePayService.checkTransactionStatus, hd, Option.map]
          split_ifs <;> simp
  · intro d s hd hs hmem
    cases hd
    cases su
    · rfl
    · simp only [SourcePayService.checkTransactionStatus, hs, Option.map]
      simp only [List.mem_cons, List.not_mem_nil, or_false, not_or] at hmem
      obtain ⟨h1, h2, h3, h4, h5, h6, h7⟩ := hmem
      split_ifs with hif1 hif2 hif3
      · simp only [Bool.or_eq_true, beq_iff_eq] at hif1
        rcases hif1 with h | h
        · exact absurd h h1
        · exact absurd h h2
      · rfl
      · simp only [Bool.or_eq_true, beq_iff_eq] at hif3
        rcases hif3 with (h | h) | h
        · exact absurd h h5
        · exact absurd h h6
        · exact absurd h h7
      · rfl
  · intro t ts hbu hbl
    cases hbl
    cases hbu
    rfl
  · intro hcase
    rcases hcase with h | h
    · cases h
      cases bl <;> rfl
    · cases h
      cases bu <;> rfl

/-- Witness for c4_status_normalization: an unrecognized SourcePay code
maps to "pending" and a found BullsPay status is passed through raw. -/
theorem c4_status_normalization_witness :
    SourcePayService.checkTransactionStatus ⟨true, some ⟨some "WEIRD"⟩⟩ =
        "pending" ∧
    BullsPayService.checkTransactionStatus ⟨true, [⟨"chargeback-x"⟩]⟩ =
        "chargeback-x" := by
  constructor
  · exact (c4_status_normalization ⟨true, [⟨"chargeback-x"⟩]⟩
      ⟨true, some ⟨some "WEIRD"⟩⟩).2.1 ⟨some "WEIRD"⟩ "WEIRD" rfl rfl
      (by decide)
  · exact (c4_status_normalization ⟨true, [⟨"chargeback-x"⟩]⟩
      ⟨true, some ⟨some "WEIRD"⟩⟩).2.2.1 ⟨"chargeback-x"⟩ [] rfl rfl

/-- C7: on the success path of the checkout route — a form accepted by
the schema and a successful gateway creation whose PIX code is non-empty
(a successful create returns a payment code) — the persisted transaction
is in "pending" status, carries the gateway PIX code as its payment code
(hence a non-empty one), stores exactly the submitted price as amount,
and is inserted into the store. -/
theorem c7_checkout_creates_pending_exact_amount (emailOk : String → Bool)
    (form : CheckoutForm) (externalId : String)
    (resp : BullsPayTransactionResponse) (now : JSDate) (st : MemStorage)
    (hvalid : checkoutFormValid emailOk form = true)
    (hqr : resp.data.pix_data.qrcode ≠ "") :
    ((Routes.createTransactionRoute form externalId resp now st).1).status =
        "pending" ∧
    ((Routes.createTransactionRoute form externalId resp now st).1).amount =
        form.price ∧
    ((Routes.createTransactionRoute form externalId resp now st).1).paymentData =
        some ⟨none, some resp.data.pix_data.qrcode, none⟩ ∧
    resp.data.pix_data.qrcode ≠ "" ∧
    (Routes.createTransactionRoute form externalId resp now st).1 ∈
      ((Routes.createTransactionRoute form externalId resp now st).2).transactions := by
  refine ⟨rfl, rfl, rfl, hqr, ?_⟩
  simp [Routes.createTransactionRoute, MemStorage.createTransaction]

/-- Witness for c7_checkout_creates_pending_exact_amount at the annual
plan scenario form. -/
theorem c7_checkout_creates_pending_exact_amount_witness :
    ((Routes.createTransactionRoute exForm "ext-1" exResp dA exSt0).1).status =
        "pending" ∧
    ((Routes.createTransactionRoute exForm "ext-1" exResp dA exSt0).1).amount =
        exForm.price := by
  have h0 := c7_checkout_creates_pending_exact_amount (fun _ => true) exForm
    "ext-1" exResp dA exSt0 (by decide) (by decide)
  exact ⟨h0.1, h0.2.1⟩

/-- When the transaction is found, the status update is exactly: return
the patched row and replace it in the transactions table. -/
lemma updateTransactionStatus_eq_of_found (u s : String)
    (pd : Option PaymentData) (now : JSDate) (st : MemStorage)
    (t : Transaction) (h : MemStorage.getTransactionByUnicId u st = some t) :
    MemStorage.updateTransactionStatus u s pd now st =
      (some (patchedTx t s pd now),
       { st with
          transactions := st.transactions.map
              (fun x => if x.id == t.id then patchedTx t s pd now else x) }) := by
  unfold MemStorage.updateTransactionStatus
  rw [h]
  rfl

/-- Searching an appended list starts over in the second part when the
first part has no match. -/
lemma find?_append_of_none {α : Type} (p : α → Bool) (l1 l2 : List α)
    (h : l1.find? p = none) : (l1 ++ l2).find? p = l2.find? p := by
  induction l1 with
  | nil => rfl
  | cons a l ih =>
    have hpa : ¬ p a = true := by
      intro hpa
      rw [List.find?_cons_of_pos (p := p) l hpa] at h
      cases h
    rw [List.cons_append, List.find?_cons_of_neg (p := p) _ hpa]
    apply ih
    rwa [List.find?_cons_of_neg (p := p) l hpa] at h

/-- A status event whose stored transaction has no user reference leaves
the subscriptions table unchanged, whatever the reported status is. -/
lemma handle_no_user_subscriptions (p : WebhookPayload) (now : JSDate)
    (st2 : MemStorage) (t : Transaction)
    (hfind : MemStorage.getTransactionByUnicId p.data.unic_id st2 = some t)
    (huser : t.userId = none) :
    (WebhookService.handleTransactionEvent p now st2).subscriptions =
      st2.subscriptions := by
  unfold WebhookService.handleTransactionEvent
  rw [updateTransactionStatus_eq_of_found p.data.unic_id p.data.status none
    now st2 t hfind]
  dsimp only
  have hpt : (patchedTx t p.data.status none now).userId = none := huser
  by_cases hg : (p.data.status == "paid") = true
  · rw [if_pos hg, hpt]
  · rw [if_neg hg]

/-- The status-transition handler never touches the webhook events
table. -/
lemma handleTransactionEvent_webhookEvents (p : WebhookPayload)
    (now : JSDate) (st : MemStorage) :
    (WebhookService.handleTransactionEvent p now st).webhookEvents =
      st.webhookEvents := by
  unfold WebhookService.handleTransactionEvent
  have hframe := (updateTransactionStatus_frame p.data.unic_id p.data.status
    none now st).2.1
  cases hE : MemStorage.updateTransactionStatus p.data.unic_id p.data.status
      none now st with
  | mk tOpt st1 =>
    rw [hE] at hframe
    cases tOpt with
    | none => exact hframe
    | some t =>
      dsimp only
      by_cases hg : (p.data.status == "paid") = true
      · rw [if_pos hg]
        cases hu : t.userId with
        | none => exact hframe
        | some uid =>
          dsimp only
          by_cases he : uid.isEmpty = true
          · rw [if_pos he]
            exact hframe
          · rw [if_neg he]
            unfold WebhookService.createSubscription MemStorage.createSubscription
            exact hframe
      · rw [if_neg hg]
        exact hframe

/-- C6: when a "paid" status event finds its stored transaction and that
transaction carries a (non-empty) user reference, exactly one
subscription is appended; it is active, starts at the current time, ends
strictly later, and its end is one calendar year after the start for the
"annual" plan and one calendar month after the start for every other
plan code — "premium", "basic", and any unrecognized code alike. -/
theorem c6_paid_creates_one_subscription (p : WebhookPayload) (now : JSDate)
    (st : MemStorage) (t : Transaction) (u : String)
    (hfind : MemStorage.getTransactionByUnicId p.data.unic_id st = some t)
    (huser : t.userId = some u) (hu : u ≠ "")
    (hpaid : p.data.status = "paid") :
    ∃ sub : Subscription,
      (WebhookService.handleTransactionEvent p now st).subscriptions =
        st.subscriptions ++ [sub] ∧
      sub.status = "active" ∧ sub.userId = u ∧ sub.plan = t.plan ∧
      sub.startDate = now ∧ dateLtB sub.startDate sub.endDate = true ∧
      (t.plan = "annual" → sub.endDate = addOneYearJS now) ∧
      (t.plan ≠ "annual" → sub.endDate = addOneMonthJS now) := by
  have hue : u.isEmpty = false := by
    rw [Bool.eq_false_iff]
    intro hb
    exact hu ((String.isEmpty_iff u).mp hb)
  unfold WebhookService.handleTransactionEvent
  rw [updateTransactionStatus_eq_of_found p.data.unic_id p.data.status none
    now st t hfind]
  dsimp only
  rw [hpaid]
  rw [if_pos (show (("paid" : String) == "paid") = true from rfl)]
  have hpt : (patchedTx t "paid" none now).userId = some u := huser
  rw [hpt]
  dsimp only
  rw [if_neg (show ¬ (u.isEmpty = true) from by rw [hue]; simp)]
  unfold WebhookService.createSubscription MemStorage.createSubscription
  simp only [patchedTx]
  refine ⟨_, rfl, rfl, rfl, rfl, rfl, ?_, ?_, ?_⟩
  · dsimp only
    split_ifs
    · exact dateLtB_addOneMonthJS now
    · exact dateLtB_addOneYearJS now
    · exact dateLtB_addOneMonthJS now
  · intro hpl
    dsimp only
    simp [hpl]
  · intro hpl
    dsimp only
    by_cases hc : (t.plan == "premium" || t.plan == "basic") = true
    · rw [if_pos hc]
    · rw [if_neg hc]
      have hna : (t.plan == "annual") = false := by
        rw [beq_eq_false_iff_ne]
        exact hpl
      simp [hna]

/-- Witness for c6_paid_creates_one_subscription: the stored "premium"
transaction with user "user1" receiving "paid". -/
theorem c6_paid_creates_one_subscription_witness :
    ∃ sub : Subscription,
      (WebhookService.handleTransactionEvent exPaidPayload dA
          exSt).subscriptions = exSt.subscriptions ++ [sub] ∧
      sub.status = "active" ∧ sub.userId = "user1" ∧ sub.plan = exTx.plan ∧
      sub.startDate = dA ∧ dateLtB sub.startDate sub.endDate = true ∧
      (exTx.plan = "annual" → sub.endDate = addOneYearJS dA) ∧
      (exTx.plan ≠ "annual" → sub.endDate = addOneMonthJS dA) :=
  c6_paid_creates_one_subscription exPaidPayload dA exSt exTx "user1"
    (by decide) (by decide) (by decide) (by decide)

/-- C9: the checkout route persists its transaction with a null user
reference; consequently, when that freshly persisted transaction later
receives a "paid" status event, the handler leaves the subscriptions
table unchanged — no subscription is ever created for a public-checkout
transaction. -/
theorem c9_checkout_user_null_no_subscription (form : CheckoutForm)
    (externalId : String) (resp : BullsPayTransactionResponse)
    (p : WebhookPayload) (now now2 : JSDate) (st : MemStorage)
    (hfresh : MemStorage.getTransactionByUnicId resp.data.payment_data.id
      st = none)
    (hp : p.data.unic_id = resp.data.payment_data.id)
    (hpaid : p.data.status = "paid") :
    ((Routes.createTransactionRoute form externalId resp now st).1).userId =
        none ∧
    (WebhookService.handleTransactionEvent p now2
        ((Routes.createTransactionRoute form externalId resp now
          st).2)).subscriptions =
      ((Routes.createTransactionRoute form externalId resp now
        st).2).subscriptions := by
  refine ⟨rfl, ?_⟩
  refine handle_no_user_subscriptions p now2 _
    ((Routes.createTransactionRoute form externalId resp now st).1) ?_ rfl
  unfold Routes.createTransactionRoute MemStorage.createTransaction
    MemStorage.getTransactionByUnicId
  dsimp only
  rw [hp]
  have hn : st.transactions.find?
      (fun x => x.unicId == resp.data.payment_data.id) = none := hfresh
  rw [find?_append_of_none _ _ _ hn]
  rw [List.find?_cons_of_pos
    (p := fun x : Transaction => x.unicId == resp.data.payment_data.id) _
    (beq_self_eq_true _)]

/-- Witness for c9_checkout_user_null_no_subscription at the annual-plan
form, empty store, and a matching "paid" webhook payload. -/
theorem c9_checkout_user_null_no_subscription_witness :
    ((Routes.createTransactionRoute exForm "ext-1" exResp dA exSt0).1).userId =
        none ∧
    (WebhookService.handleTransactionEvent exPaidPayload9 dB
        ((Routes.createTransactionRoute exForm "ext-1" exResp dA
          exSt0).2)).subscriptions =
      ((Routes.createTransactionRoute exForm "ext-1" exResp dA
        exSt0).2).subscriptions :=
  c9_checkout_user_null_no_subscription exForm "ext-1" exResp exPaidPayload9
    dA dB exSt0 (by decide) (by decide) (by decide)

/-- C10: receiving a webhook appends the event with processed = false and
leaves every other stored event flag untouched; the flag stays false even
though the status transition is run right away, so the new event is still
listed as unprocessed afterwards and will be replayed by the next
startup sweep — only the replay marks events processed. -/
theorem c10_webhook_receipt_leaves_processed_false (p : WebhookPayload)
    (now : JSDate) (st : MemStorage) :
    (WebhookService.processWebhookEvent p now st).webhookEvents =
      st.webhookEvents ++
        [{ id := Nat.repr st.nextId, eventType := p.event_type,
           transactionId := p.data.unic_id, payload := p, processed := false,
           createdAt := now }] ∧
    ({ id := Nat.repr st.nextId, eventType := p.event_type,
       transactionId := p.data.unic_id, payload := p, processed := false,
       createdAt := now } : WebhookEvent) ∈
      MemStorage.getUnprocessedWebhookEvents
        (WebhookService.processWebhookEvent p now st) := by
  have h1 : (WebhookService.processWebhookEvent p now st).webhookEvents =
      st.webhookEvents ++
        [{ id := Nat.repr st.nextId, eventType := p.event_type,
           transactionId := p.data.unic_id, payload := p, processed := false,
           createdAt := now }] := by
    unfold WebhookService.processWebhookEvent
    dsimp only
    rw [handleTransactionEvent_webhookEvents]
    rfl
  refine ⟨h1, ?_⟩
  unfold MemStorage.getUnprocessedWebhookEvents
  rw [h1]
  simp [List.mem_filter]

/-- Marking an id sets the stored flag of that id to true. -/
lemma listFlag_mark_self (l : List WebhookEvent) (i : String) (b : Bool)
    (h : listFlag l i = some b) :
    listFlag (l.map (fun e => if e.id == i then { e with processed := true }
      else e)) i = some true := by
  induction l with
  | nil => simp [listFlag] at h
  | cons a l ih =>
    by_cases ha : (a.id == i) = true
    · simp only [listFlag, List.map_cons, if_pos ha]
      rw [List.find?_cons]
      dsimp only
      rw [ha]
      rfl
    · simp only [listFlag, List.map_cons, if_neg ha]
      rw [List.find?_cons_of_neg (p := fun e : WebhookEvent => e.id == i) _ ha]
      have h' : listFlag l i = some b := by
        simpa [listFlag,
          List.find?_cons_of_neg (p := fun e : WebhookEvent => e.id == i) l ha]
          using h
      simpa [listFlag] using ih h'

/-- Marking one id leaves the stored flag of a different id unchanged. -/
lemma listFlag_mark_other (l : List WebhookEvent) (i j : String)
    (hij : j ≠ i) :
    listFlag (l.map (fun e => if e.id == j then { e with processed := true }
      else e)) i = listFlag l i := by
  induction l with
  | nil => rfl
  | cons a l ih =>
    simp only [listFlag, List.map_cons] at *
    by_cases ha : (a.id == j) = true
    · rw [if_pos ha]
      have haj : a.id = j := eq_of_beq ha
      have hai : (a.id == i) = false := by
        rw [beq_eq_false_iff_ne, haj]
        exact hij
      rw [List.find?_cons_of_neg (p := fun e : WebhookEvent => e.id == i) _
        (by simp [hai])]
      rw [List.find?_cons_of_neg (p := fun e : WebhookEvent => e.id == i) _
        (by simp [hai])]
      exact ih
    · rw [if_neg ha]
      by_cases hai : (a.id == i) = true
      · rw [List.find?_cons_of_pos (p := fun e : WebhookEvent => e.id == i) _ hai,
          List.find?_cons_of_pos (p := fun e : WebhookEvent => e.id == i) _ hai]
      · rw [List.find?_cons_of_neg (p := fun e : WebhookEvent => e.id == i) _ hai,
          List.find?_cons_of_neg (p := fun e : WebhookEvent => e.id == i) _ hai]
        exact ih

/-- Marking an event processed turns its stored flag true. -/
lemma flagOf_mark_self (st : MemStorage) (i : String) (b : Bool)
    (h : flagOf st i = some b) :
    flagOf (MemStorage.markWebhookEventProcessed i st) i = some true :=
  listFlag_mark_self st.webhookEvents i b h

/-- Marking one event processed leaves the stored flag of an event with a
different id unchanged. -/
lemma flagOf_mark_other (st : MemStorage) (i j : String) (hij : j ≠ i) :
    flagOf (MemStorage.markWebhookEventProcessed j st) i = flagOf st i :=
  listFlag_mark_other st.webhookEvents i j hij

/-- Replaying events none of which carries a given id never changes that
stored flag of that id, for any handler that does not touch the events
table. -/
lemma flagOf_replayLoop_untouched
    (h : WebhookPayload → MemStorage → Except Unit MemStorage)
    (frame : ∀ p s s', h p s = Except.ok s' →
      s'.webhookEvents = s.webhookEvents)
    (i : String) :
    ∀ (evs : List WebhookEvent) (st : MemStorage),
      (∀ x ∈ evs, x.id ≠ i) →
      flagOf (WebhookService.replayLoop h evs st) i = flagOf st i := by
  intro evs
  induction evs with
  | nil =>
    intro st _
    rfl
  | cons e es ih =>
    intro st hids
    unfold WebhookService.replayLoop
    cases hc : h e.payload st with
    | ok st' =>
      rw [ih _ (fun x hx => hids x (List.mem_cons_of_mem _ hx))]
      rw [flagOf_mark_other _ i e.id (hids e (List.mem_cons_self _ _))]
      unfold flagOf
      rw [frame _ _ _ hc]
    | error u => exact ih _ (fun x hx => hids x (List.mem_cons_of_mem _ hx))

/-- Induction core for the replay loop: the final stored flag of a
distinguished event equals the success of the handler call made for it. -/
lemma replay_flag_aux
    (h : WebhookPayload → MemStorage → Except Unit MemStorage)
    (frame : ∀ p s s', h p s = Except.ok s' →
      s'.webhookEvents = s.webhookEvents)
    (e : WebhookEvent) (post : List WebhookEvent)
    (hpost : ∀ x ∈ post, x.id ≠ e.id) :
    ∀ (pre : List WebhookEvent) (st : MemStorage),
      flagOf st e.id = some false → (∀ x ∈ pre, x.id ≠ e.id) →
      flagOf (WebhookService.replayLoop h (pre ++ e :: post) st) e.id =
        some (exceptOk (h e.payload (WebhookService.replayLoop h pre st))) := by
  intro pre
  induction pre with
  | nil =>
    intro st hflag _
    simp only [List.nil_append]
    unfold WebhookService.replayLoop
    cases hc : h e.payload st with
    | ok st' =>
      rw [flagOf_replayLoop_untouched h frame e.id post _ hpost]
      have hflag' : flagOf st' e.id = some false := by
        unfold flagOf
        rw [frame _ _ _ hc]
        exact hflag
      rw [flagOf_mark_self _ _ _ hflag']
      rfl
    | error u =>
      rw [flagOf_replayLoop_untouched h frame e.id post st hpost]
      rw [hflag]
      rfl
  | cons a pre ih =>
    intro st hflag hpre
    have ha : a.id ≠ e.id := hpre a (List.mem_cons_self _ _)
    have hpre' : ∀ x ∈ pre, x.id ≠ e.id :=
      fun x hx => hpre x (List.mem_cons_of_mem _ hx)
    simp only [List.cons_append]
    unfold WebhookService.replayLoop
    cases hc : h a.payload st with
    | ok st' =>
      apply ih
      · rw [flagOf_mark_other _ e.id a.id ha]
        unfold flagOf
        rw [frame _ _ _ hc]
        exact hflag
      · exact hpre'
    | error u => exact ih st hflag hpre'

/-- The startup sweep is the replay loop run with the concrete handler
over the events flagged unprocessed. -/
lemma processUnprocessedEvents_def (now : JSDate) (st : MemStorage) :
    WebhookService.processUnprocessedEvents now st =
      WebhookService.replayLoop
        (fun p s => Except.ok (WebhookService.handleTransactionEvent p now s))
        (MemStorage.getUnprocessedWebhookEvents st) st := rfl

/-- C5: running the replay loop over a queue of unprocessed events (the
distinguished event e, preceded by pre and followed by post, all with
distinct ids and e initially flagged unprocessed) ends with the stored
flag of e equal to exactly the success of the handler call made for e —
processed becomes true iff that call completed without error — and this
holds regardless of failures among the earlier events, which the loop
logs and skips without stopping. -/
theorem c5_replay_marks_processed_iff_success
    (h : WebhookPayload → MemStorage → Except Unit MemStorage)
    (frame : ∀ p s s', h p s = Except.ok s' →
      s'.webhookEvents = s.webhookEvents)
    (pre : List WebhookEvent) (e : WebhookEvent) (post : List WebhookEvent)
    (st : MemStorage)
    (hflag : flagOf st e.id = some false)
    (hpre : ∀ x ∈ pre, x.id ≠ e.id) (hpost : ∀ x ∈ post, x.id ≠ e.id) :
    flagOf (WebhookService.replayLoop h (pre ++ e :: post) st) e.id =
      some (exceptOk (h e.payload (WebhookService.replayLoop h pre st))) :=
  replay_flag_aux h frame e post hpost pre st hflag hpre

/-- The example handler only ever succeeds by returning its input state,
so it preserves the events table. -/
lemma exHandler_frame : ∀ p s s', exHandler p s = Except.ok s' →
    s'.webhookEvents = s.webhookEvents := by
  intro p s s' hps
  unfold exHandler at hps
  by_cases hb : (p.data.unic_id == "bad") = true
  · rw [if_pos hb] at hps
    cases hps
  · rw [if_neg hb] at hps
    cases hps
    rfl

/-- Witness for c5_replay_marks_processed_iff_success: the good event is
marked processed although the event before it failed. -/
theorem c5_replay_marks_processed_iff_success_witness :
    flagOf (WebhookService.replayLoop exHandler ([evBad] ++ evGood :: [])
        exStReplay) evGood.id = some true := by
  have h0 := c5_replay_marks_processed_iff_success exHandler exHandler_frame
    [evBad] evGood [] exStReplay (by decide) (by decide) (by decide)
  rw [h0]
  decide
